import Mathlib

/-!
Verification of the StatData (socdata) Dataset Catalog & Search Index
subsystem: a shallow embedding of `src/socdata/core/search_index.py`,
`src/socdata/core/registry.py` and `src/socdata/core/models.py`.

The SQLite-backed `SearchIndex` is embedded as explicit state: the
`datasets` table is a list of rows in rowid (insertion) order, the
`variable_labels` table a list of its rows.  Timestamps
(`datetime.utcnow().isoformat()`) are embedded as naturals: ISO-8601
strings produced by a monotone clock compare lexicographically exactly as
the instants compare, so each write takes its `now : Nat` explicitly.
SQLite `LIKE` (ASCII-case-insensitive, with `%` and `_` wildcards) is
embedded by an executable matcher.  All functions model the
`_fts5_available = False` (State B) branches of the source, except the
instrumented query-attempt model used for the failure-semantics claim,
which keeps the FTS branch abstract.
-/

namespace SocData

/-- `DatasetSummary` from `core/types.py`. -/
structure DatasetSummary where
  id : String
  source : String
  title : String
deriving DecidableEq, Repr

/-- One row of the `datasets` table (schema in `_init_db`, lines 52-63 of
`search_index.py`). -/
structure CatalogRow where
  id : String
  source : String
  title : String
  description : Option String
  license : Option String
  access_mode : String
  created_at : Nat
  updated_at : Nat
deriving DecidableEq, Repr

/-- One row of the `variable_labels` table (lines 84-92 of
`search_index.py`). -/
structure VarLabelRow where
  dataset_id : String
  variable_name : String
  label : String
deriving DecidableEq, Repr

/-- The mutable state owned by one `SearchIndex` database file:
both tables, each in rowid (insertion) order. -/
structure SearchIndex where
  datasets : List CatalogRow
  variable_labels : List VarLabelRow
deriving DecidableEq, Repr

def SearchIndex.empty : SearchIndex := ⟨[], []⟩

/-- Well-formedness maintained by the schema: `id` is the primary key of
`datasets`, so ids are pairwise distinct. -/
def SearchIndex.Wf (st : SearchIndex) : Prop :=
  (st.datasets.map (·.id)).Nodup

instance (st : SearchIndex) : Decidable st.Wf := by
  unfold SearchIndex.Wf; infer_instance

/-! ### SQLite LIKE semantics

SQLite's default `LIKE` folds the ASCII range A-Z to lower case on both
sides and treats `%` (any run) and `_` (any one character) in the pattern
as wildcards. -/

/-- ASCII-only lower casing, as SQLite's default `LIKE` applies it. -/
def likeLower (c : Char) : Char :=
  if 'A' ≤ c ∧ c ≤ 'Z' then Char.ofNat (c.toNat + 32) else c

/-- Try `f` on every suffix of the text (the `%` wildcard). -/
def likeSkip (f : List Char → Bool) : List Char → Bool
  | [] => f []
  | c :: ts => f (c :: ts) || likeSkip f ts

/-- `likeMatch pattern text`: SQLite `text LIKE pattern` with default
(ASCII case-insensitive) collation. -/
def likeMatch : List Char → List Char → Bool
  | [], t => t.isEmpty
  | p :: ps, t =>
    if p = '%' then likeSkip (likeMatch ps) t
    else match t with
      | [] => false
      | c :: ts => (if p = '_' then true else likeLower p == likeLower c) && likeMatch ps ts

/-- `text LIKE pattern` with SQL argument order. -/
def sqlLike (text pattern : String) : Bool := likeMatch pattern.data text.data

/-- The pattern the source builds: `f"%{query}%"` (with `\x7b \x7d` braces
in the Python source). -/
def likePattern (q : String) : String := "%" ++ q ++ "%"

/-- Case-insensitive (ASCII folding) substring containment: the spec-side
notion "contains `q` as a case-insensitive substring". -/
def containsCI (hay needle : String) : Bool :=
  decide ((needle.data.map likeLower) <:+: (hay.data.map likeLower))

/-- A string free of the SQL `LIKE` wildcard characters. -/
def wildcardFree (s : String) : Prop :=
  ∀ c ∈ s.data, c ≠ '%' ∧ c ≠ '_'

instance (s : String) : Decidable (wildcardFree s) := by
  unfold wildcardFree; infer_instance

/-! ### SearchIndex.index_dataset (lines 108-188)

The FTS5 shadow-table branch (lines 166-185) is the only consumer of
`value_labels`; in State B it is skipped, so the parameter is accepted and
unused, exactly as in the source. -/

/-- SQL `UPDATE datasets SET title, description, license, access_mode,
updated_at WHERE id = dataset_id` (lines 143-147): `source` and
`created_at` are not in the SET list. -/
def updateRow (title : String) (description license : Option String)
    (access_mode : String) (now : Nat) (dataset_id : String) (r : CatalogRow) : CatalogRow :=
  if r.id = dataset_id then
    { r with title := title, description := description, license := license,
             access_mode := access_mode, updated_at := now }
  else r

/-- `SearchIndex.index_dataset`: check existence, UPDATE or INSERT the
`datasets` row, then DELETE all `variable_labels` rows of the id and
re-INSERT the given ones. -/
def SearchIndex.index_dataset (st : SearchIndex) (now : Nat)
    (dataset_id source title : String)
    (description license : Option String := none) (access_mode : String := "direct")
    (variable_labels : List (String × String) := [])
    (value_labels : List (String × List (String × String)) := []) : SearchIndex :=
  let _ := value_labels
  let exists_ := st.datasets.any (fun r => r.id == dataset_id)
  let datasets :=
    if exists_ then
      st.datasets.map (updateRow title description license access_mode now dataset_id)
    else
      st.datasets ++ [⟨dataset_id, source, title, description, license, access_mode, now, now⟩]
  let kept := st.variable_labels.filter (fun vl => ¬ vl.dataset_id == dataset_id)
  let inserted := variable_labels.map (fun p => VarLabelRow.mk dataset_id p.1 p.2)
  ⟨datasets, kept ++ inserted⟩

/-! ### SearchIndex.search, State B branch (lines 232-250) -/

/-- Python truthiness of an optional string argument (`if source:`):
`None` and `""` are both falsy. -/
def truthy : Option String → Bool
  | none => false
  | some s => ¬ s == ""

/-- `description LIKE ?` on a nullable column: a NULL description makes
the `LIKE` evaluate to NULL, which does not satisfy the WHERE clause. -/
def descLike (q : String) : Option String → Bool
  | some d => sqlLike d (likePattern q)
  | none => false

/-- The spec-side reading of the same clause: the description, when
present, contains the query as a case-insensitive substring. -/
def descContainsCI (q : String) : Option String → Bool
  | some d => containsCI d q
  | none => false

/-- WHERE clause of the State B `search` (lines 236-250):
`(title LIKE ? OR id LIKE ? OR description LIKE ?) [AND source = ?]`. -/
def rowMatchesLike (q : String) (r : CatalogRow) : Bool :=
  sqlLike r.title (likePattern q) || sqlLike r.id (likePattern q) ||
    descLike q r.description

/-- `AND source = ?` when a truthy source filter is given (`if source:`). -/
def srcCond (source : Option String) (r : CatalogRow) : Bool :=
  if truthy source then r.source == source.getD "" else true

def toSummary (r : CatalogRow) : DatasetSummary := ⟨r.id, r.source, r.title⟩

/-- `SearchIndex.search` in State B: plain-table scan in rowid order,
LIMIT applied after the WHERE clause. -/
def SearchIndex.search (st : SearchIndex) (query : String)
    (source : Option String := none) (limit : Nat := 100) : List DatasetSummary :=
  (((st.datasets.filter (fun r => rowMatchesLike query r && srcCond source r)).take
      limit).map toSummary)

/-- The spec-side State B search, worded from the spec: "exactly those
datasets whose title, id, or description contains q as a case-insensitive
substring (and whose source equals the given source when one is
supplied), truncated at limit". -/
def specSearchB (st : SearchIndex) (query : String)
    (source : Option String := none) (limit : Nat := 100) : List DatasetSummary :=
  (((st.datasets.filter (fun r =>
      (containsCI r.title query || containsCI r.id query ||
        descContainsCI query r.description) && srcCond source r)).take limit).map toSummary)

/-! ### SearchIndex.search_advanced, State B branch (lines 280-342) -/

/-- The `query` condition (lines 305-312): added only when `query` is
truthy; in State B it is the same three-way LIKE disjunction. -/
def queryCond (query : Option String) (r : CatalogRow) : Bool :=
  if truthy query then rowMatchesLike (query.getD "") r else true

/-- The `variable_name` condition (lines 318-320): added only when truthy;
`EXISTS (SELECT 1 FROM variable_labels vl WHERE vl.dataset_id = d.id AND
vl.variable_name LIKE ?)` with pattern `%variable_name%`. -/
def varCond (st : SearchIndex) (variable_name : Option String) (r : CatalogRow) : Bool :=
  if truthy variable_name then
    st.variable_labels.any (fun vl =>
      vl.dataset_id == r.id && sqlLike vl.variable_name (likePattern (variable_name.getD "")))
  else true

/-- The `ORDER BY d.updated_at DESC` comparison: most recently updated
first (ISO-8601 text timestamps embedded as naturals). -/
def updatedDesc (a b : CatalogRow) : Prop := b.updated_at ≤ a.updated_at

instance : DecidableRel updatedDesc := fun a b =>
  inferInstanceAs (Decidable (b.updated_at ≤ a.updated_at))

/-- `ORDER BY d.updated_at DESC` (realized by a sort; SQLite leaves the
relative order of equal keys unspecified). `SELECT DISTINCT` is the
identity here because `id` is the primary key, so distinct rows project
to distinct triples. -/
def SearchIndex.search_advanced (st : SearchIndex)
    (query source variable_name : Option String := none)
    (limit : Nat := 100) : List DatasetSummary :=
  ((((st.datasets.filter (fun r =>
        queryCond query r && srcCond source r && varCond st variable_name r)).insertionSort
      updatedDesc).take limit).map toSummary)

/-! ### SearchIndex.get_dataset_info (lines 344-382) -/

/-- The result dict of `get_dataset_info`: the `datasets` row plus the
variable-label map (returned here in table order; the source orders by
`variable_name`, which leaves the key-value set unchanged). -/
structure DatasetInfo where
  id : String
  source : String
  title : String
  description : Option String
  license : Option String
  access_mode : String
  created_at : Nat
  updated_at : Nat
  variable_labels : List (String × String)
deriving DecidableEq, Repr

/-- `SearchIndex.get_dataset_info`: point lookup by id, `None` when the
row is absent. -/
def SearchIndex.get_dataset_info (st : SearchIndex) (dataset_id : String) :
    Option DatasetInfo :=
  match st.datasets.find? (fun r => r.id == dataset_id) with
  | none => none
  | some r =>
    some ⟨r.id, r.source, r.title, r.description, r.license, r.access_mode,
          r.created_at, r.updated_at,
          (st.variable_labels.filter (fun vl => vl.dataset_id == dataset_id)).map
            (fun vl => (vl.variable_name, vl.label))⟩

/-- `SearchIndex.clear_index` (lines 420-424): delete the database file
and re-create the empty schema. -/
def SearchIndex.clear_index (_st : SearchIndex) : SearchIndex := SearchIndex.empty

/-! ### SearchIndex.rebuild_index (lines 384-418)

For each adapter-declared dataset the source reads
`meta/ingestion_manifest.json`; a missing file or any exception while
reading it leaves `variable_labels = {}` (empty), `value_labels = {}` and
`license_info = None`, and the dataset is indexed anyway.  The read
outcome is embedded as an `Option`: `none` covers both the missing and
the malformed manifest. -/

/-- The fields `rebuild_index` extracts from one manifest. -/
structure ManifestFields where
  variable_labels : List (String × String)
  value_labels : List (String × List (String × String))
  license : Option String
deriving DecidableEq, Repr

/-- One adapter-declared dataset together with its manifest-read outcome
(`none`: file absent, or `json.loads`/read raised). -/
structure RebuildSource where
  summary : DatasetSummary
  manifest : Option ManifestFields
deriving DecidableEq, Repr

/-- `SearchIndex.rebuild_index`: index every adapter-declared dataset in
order, with empty labels and no license when its manifest read failed.
Each `index_dataset` call takes a fresh `utcnow()`, embedded as a
monotone clock starting at `now0`. -/
def SearchIndex.rebuild_index (st : SearchIndex) (now0 : Nat) :
    List RebuildSource → SearchIndex
  | [] => st
  | s :: rest =>
    let ds := s.summary
    let variable_labels := match s.manifest with
      | some m => m.variable_labels
      | none => []
    let value_labels := match s.manifest with
      | some m => m.value_labels
      | none => []
    let license_info := match s.manifest with
      | some m => m.license
      | none => none
    (st.index_dataset now0 ds.id ds.source ds.title none license_info
        "direct" variable_labels value_labels).rebuild_index (now0 + 1) rest

/-! ### Instrumented query model for the failure semantics of
`search` / `search_advanced` (lines 252-278 and 328-342)

The SQL statements the two methods can issue, and an abstract storage
engine that answers each with rows or an error.  `sqlite3` errors are
split into `operational` (`sqlite3.OperationalError`, the only class the
`except` arm at line 255 catches) and `database` (any other engine
error). -/

inductive SqlQuery where
  /-- The FTS5 `MATCH` query of State A (lines 210-231). -/
  | ftsSearch (q : String) (source : Option String) (limit : Nat)
  /-- The State B `LIKE` query over title, id and description
  (lines 232-250). -/
  | likeSearch (q : String) (source : Option String) (limit : Nat)
  /-- The retry query of lines 256-274: `LIKE` over title and id only. -/
  | likeRetrySearch (q : String) (source : Option String) (limit : Nat)
  /-- The single statement `search_advanced` builds (lines 328-338). -/
  | advancedSearch (fts5 : Bool) (q source variable_name : Option String) (limit : Nat)
deriving DecidableEq, Repr

inductive SqlError where
  | operational
  | database
deriving DecidableEq, Repr

/-- An abstract storage engine: what `cursor.execute` returns or raises
for each statement. -/
def Engine : Type := SqlQuery → Except SqlError (List DatasetSummary)

/-- The primary statement `search` executes first: FTS `MATCH` in State
A, the three-way `LIKE` in State B. -/
def primaryQuery (fts5 : Bool) (q : String) (source : Option String)
    (limit : Nat) : SqlQuery :=
  if fts5 then SqlQuery.ftsSearch q source limit
  else SqlQuery.likeSearch q source limit

/-- `SearchIndex.search` as the sequence of statements it executes: the
primary statement; on `sqlite3.OperationalError` only, one retry with the
title/id `LIKE` query, whose own outcome is returned unprotected.
Returns the issued statements in order and the final outcome. -/
def searchAttempts (fts5 : Bool) (eng : Engine) (q : String)
    (source : Option String) (limit : Nat) :
    List SqlQuery × Except SqlError (List DatasetSummary) :=
  match eng (primaryQuery fts5 q source limit) with
  | .ok rows => ([primaryQuery fts5 q source limit], .ok rows)
  | .error .operational =>
    ([primaryQuery fts5 q source limit, SqlQuery.likeRetrySearch q source limit],
     eng (SqlQuery.likeRetrySearch q source limit))
  | .error .database =>
    ([primaryQuery fts5 q source limit], .error .database)

/-- `SearchIndex.search_advanced` as the statements it executes: exactly
one, with no try/except around it. -/
def searchAdvancedAttempts (fts5 : Bool) (eng : Engine)
    (q source variable_name : Option String) (limit : Nat) :
    List SqlQuery × Except SqlError (List DatasetSummary) :=
  let sql := SqlQuery.advancedSearch fts5 q source variable_name limit
  ([sql], eng sql)

/-! ### AdapterRegistry (`core/registry.py`) -/

/-- The keys of the module-level `_ADAPTERS` table (lines 23-33), in
insertion order; each adapter object is embedded by its key. -/
def adapterKeys : List String :=
  ["eurostat", "manual", "soep", "gss", "ess", "icpsr", "issp", "cses", "evs"]

/-- Python `s.split(":", 1)[0]`: the segment before the first colon. -/
def beforeFirstColon (s : String) : String :=
  ⟨s.data.takeWhile (fun c => ¬ c == ':')⟩

/-- `resolve_adapter` (lines 36-57): colon-prefixed source lookup first,
then whole-string lookup, else `AdapterNotFoundError` (embedded as
`none`). -/
def resolve_adapter (dataset_or_adapter_id : String) : Option String :=
  if ':' ∈ dataset_or_adapter_id.data ∧
      beforeFirstColon dataset_or_adapter_id ∈ adapterKeys then
    some (beforeFirstColon dataset_or_adapter_id)
  else if dataset_or_adapter_id ∈ adapterKeys then
    some dataset_or_adapter_id
  else
    none

/-- The linear-scan fallback of `search_datasets` (lines 99-105):
`query.lower() in ds.title.lower() or query.lower() in ds.id.lower()`
over `list_datasets(source)`. -/
def simpleScan (query : String) (all_ds : List DatasetSummary) : List DatasetSummary :=
  all_ds.filter (fun ds => containsCI ds.title query || containsCI ds.id query)

/-- `search_datasets` (lines 69-105).  The index interaction is embedded
by its observed outcome `indexResult` (`index.search(query, source)`
returning rows or raising); `all_ds` is the `list_datasets(source)`
listing.  `if results: return results` falls through to the scan both on
an exception and on an empty result list. -/
def search_datasets (indexResult : Except SqlError (List DatasetSummary))
    (query : String) (all_ds : List DatasetSummary)
    (use_index : Bool := true) : List DatasetSummary :=
  if use_index then
    match indexResult with
    | .ok results => if ¬ results.isEmpty then results else simpleScan query all_ds
    | .error _ => simpleScan query all_ds
  else simpleScan query all_ds

/-! ### IngestionManifest (`core/models.py`, lines 35-48)

The pydantic model and its JSON (de)serialization, over a minimal JSON
value type.  `datetime` values are embedded by their ISO-8601 wire
strings (pydantic serializes a datetime to that string and parses it
back), dicts as association lists in insertion order. -/

inductive Json where
  | null
  | str (s : String)
  | arr (elems : List Json)
  | obj (fields : List (String × Json))

/-- `IngestionManifest`: required `timestamp`, `adapter`, `parameters`;
the rest optional with empty/`None` defaults. -/
structure IngestionManifest where
  timestamp : String
  adapter : String
  parameters : List (String × String)
  source_hashes : List (String × String) := []
  transforms : List String := []
  dataset_id : Option String := none
  source : Option String := none
  license : Option String := none
  variable_labels : List (String × String) := []
  value_labels : List (String × List (String × String)) := []
deriving DecidableEq, Repr

def strMapJson (m : List (String × String)) : Json :=
  .obj (m.map (fun p => (p.1, Json.str p.2)))

def optStrJson : Option String → Json
  | none => .null
  | some s => .str s

/-- `model_dump_json`: every field serialized, `None` as JSON null,
mappings as objects, lists as arrays. -/
def dumpManifest (m : IngestionManifest) : Json :=
  .obj [
    ("timestamp", .str m.timestamp),
    ("adapter", .str m.adapter),
    ("parameters", strMapJson m.parameters),
    ("source_hashes", strMapJson m.source_hashes),
    ("transforms", .arr (m.transforms.map .str)),
    ("dataset_id", optStrJson m.dataset_id),
    ("source", optStrJson m.source),
    ("license", optStrJson m.license),
    ("variable_labels", strMapJson m.variable_labels),
    ("value_labels", .obj (m.value_labels.map (fun p => (p.1, strMapJson p.2))))]

def lookupField : List (String × Json) → String → Option Json
  | [], _ => none
  | (k, v) :: rest, key => if k = key then some v else lookupField rest key

def asStr : Json → Option String
  | .str s => some s
  | _ => none

def asStrMap : Json → Option (List (String × String))
  | .obj fs => fs.mapM (fun p => (asStr p.2).map (fun s => (p.1, s)))
  | _ => none

def asStrList : Json → Option (List String)
  | .arr xs => xs.mapM asStr
  | _ => none

def asStrMapMap : Json → Option (List (String × List (String × String)))
  | .obj fs => fs.mapM (fun p => (asStrMap p.2).map (fun m => (p.1, m)))
  | _ => none

/-- A pydantic `Optional[str] = None` field: absent or null parse to
`None`, a string to itself, anything else is a validation error. -/
def parseOptStr (fs : List (String × Json)) (key : String) : Option (Option String) :=
  match lookupField fs key with
  | none => some none
  | some .null => some none
  | some (.str s) => some (some s)
  | some _ => none

/-- A field with a `default_factory` default: absent parses to the
default; present must convert (null is rejected for these field types). -/
def parseDefault (fs : List (String × Json)) (key : String)
    (conv : Json → Option α) (dflt : α) : Option α :=
  match lookupField fs key with
  | none => some dflt
  | some v => conv v

/-- `model_validate` on a parsed JSON value: required fields must be
present with the right type, optional fields default; unknown extra
fields are ignored (pydantic's default `extra` behavior). -/
def parseManifest : Json → Option IngestionManifest
  | .obj fs => do
    let timestamp ← (lookupField fs "timestamp").bind asStr
    let adapter ← (lookupField fs "adapter").bind asStr
    let parameters ← (lookupField fs "parameters").bind asStrMap
    let source_hashes ← parseDefault fs "source_hashes" asStrMap []
    let transforms ← parseDefault fs "transforms" asStrList []
    let dataset_id ← parseOptStr fs "dataset_id"
    let source ← parseOptStr fs "source"
    let license ← parseOptStr fs "license"
    let variable_labels ← parseDefault fs "variable_labels" asStrMap []
    let value_labels ← parseDefault fs "value_labels" asStrMapMap []
    pure ⟨timestamp, adapter, parameters, source_hashes, transforms, dataset_id,
          source, license, variable_labels, value_labels⟩
  | _ => none

/-! ## Lemmas: the LIKE matcher against substring containment -/

theorem likeMatch_nil_pattern (t : List Char) : likeMatch [] t = t.isEmpty := by
  simp [likeMatch]

theorem likeMatch_pct_cons (ps t : List Char) :
    likeMatch ('%' :: ps) t = likeSkip (likeMatch ps) t := by
  simp [likeMatch]

theorem likeMatch_cons_nil (a : Char) (ha : a ≠ '%') (ps : List Char) :
    likeMatch (a :: ps) [] = false := by
  rw [likeMatch, if_neg ha]

theorem likeMatch_cons_cons (a : Char) (ha : a ≠ '%') (ps : List Char)
    (c : Char) (ts : List Char) :
    likeMatch (a :: ps) (c :: ts) =
      ((if a = '_' then true else likeLower a == likeLower c) && likeMatch ps ts) := by
  rw [likeMatch, if_neg ha]

theorem likeSkip_eq_true_iff (f : List Char → Bool) (t : List Char) :
    likeSkip f t = true ↔ ∃ n, f (t.drop n) = true := by
  induction t with
  | nil => simp [likeSkip]
  | cons c ts ih =>
    simp only [likeSkip, Bool.or_eq_true, ih]
    constructor
    · rintro (h | ⟨n, hn⟩)
      · exact ⟨0, h⟩
      · exact ⟨n + 1, hn⟩
    · rintro ⟨n, hn⟩
      cases n with
      | zero => exact Or.inl hn
      | succ m => exact Or.inr ⟨m, hn⟩

theorem likeMatch_plain_append_pct (p : List Char) (t : List Char)
    (hp : ∀ c ∈ p, c ≠ '%' ∧ c ≠ '_') :
    likeMatch (p ++ ['%']) t = true ↔ (p.map likeLower) <+: (t.map likeLower) := by
  induction p generalizing t with
  | nil =>
    simp only [List.nil_append, List.map_nil]
    constructor
    · intro _
      exact List.nil_prefix
    · intro _
      rw [likeMatch_pct_cons, likeSkip_eq_true_iff]
      exact ⟨t.length, by simp [likeMatch_nil_pattern]⟩
  | cons a p ih =>
    have ha := hp a (List.mem_cons_self a p)
    have hp' : ∀ c ∈ p, c ≠ '%' ∧ c ≠ '_' := fun c hc => hp c (List.mem_cons_of_mem a hc)
    cases t with
    | nil =>
      rw [List.cons_append, likeMatch_cons_nil a ha.1]
      simp
    | cons c ts =>
      rw [List.cons_append, likeMatch_cons_cons a ha.1, if_neg ha.2]
      simp only [Bool.and_eq_true, beq_iff_eq, List.map_cons, List.cons_prefix_cons]
      exact and_congr Iff.rfl (ih ts hp')

theorem infix_iff_exists_prefix_drop (l₁ l₂ : List α) :
    l₁ <:+: l₂ ↔ ∃ n, l₁ <+: l₂.drop n := by
  constructor
  · rintro ⟨s, t, rfl⟩
    refine ⟨s.length, ?_⟩
    rw [List.append_assoc, List.drop_left]
    exact List.prefix_append l₁ t
  · rintro ⟨n, hp⟩
    exact List.IsInfix.trans hp.isInfix (List.drop_suffix n l₂).isInfix

theorem bool_eq_decide (b : Bool) (p : Prop) [Decidable p] (h : b = true ↔ p) :
    b = decide p := by
  by_cases hp : p
  · rw [decide_eq_true hp]
    exact h.mpr hp
  · rw [decide_eq_false hp]
    cases hb : b with
    | false => rfl
    | true => exact absurd (h.mp hb) hp

/-- For a wildcard-free query the source's `LIKE '%q%'` test is exactly
case-insensitive substring containment. -/
theorem sqlLike_likePattern_eq_containsCI (t q : String) (hq : wildcardFree q) :
    sqlLike t (likePattern q) = containsCI t q := by
  have hdata : (likePattern q).data = '%' :: (q.data ++ ['%']) := by
    simp [likePattern]
  rw [sqlLike, hdata, likeMatch_pct_cons, containsCI]
  apply bool_eq_decide
  rw [likeSkip_eq_true_iff]
  constructor
  · rintro ⟨n, hn⟩
    rw [likeMatch_plain_append_pct q.data _ hq] at hn
    rw [infix_iff_exists_prefix_drop]
    exact ⟨n, by rwa [List.map_drop] at hn⟩
  · intro h
    rw [infix_iff_exists_prefix_drop] at h
    obtain ⟨n, hn⟩ := h
    refine ⟨n, ?_⟩
    rw [likeMatch_plain_append_pct q.data _ hq, List.map_drop]
    exact hn

theorem descLike_eq_spec (q : String) (hq : wildcardFree q) (od : Option String) :
    descLike q od = descContainsCI q od := by
  cases od with
  | none => rfl
  | some d =>
    show sqlLike d (likePattern q) = containsCI d q
    exact sqlLike_likePattern_eq_containsCI d q hq

theorem rowMatchesLike_eq_spec (q : String) (hq : wildcardFree q) (r : CatalogRow) :
    rowMatchesLike q r =
      (containsCI r.title q || containsCI r.id q || descContainsCI q r.description) := by
  unfold rowMatchesLike
  rw [sqlLike_likePattern_eq_containsCI _ _ hq, sqlLike_likePattern_eq_containsCI _ _ hq,
    descLike_eq_spec q hq]

/-! ## Lemmas: index_dataset (upsert) -/

theorem updateRow_id (title : String) (description license : Option String)
    (access_mode : String) (now : Nat) (dataset_id : String) (r : CatalogRow) :
    (updateRow title description license access_mode now dataset_id r).id = r.id := by
  unfold updateRow
  split <;> rfl

theorem index_dataset_datasets (st : SearchIndex) (now : Nat)
    (dataset_id source title : String) (description license : Option String)
    (access_mode : String) (variable_labels : List (String × String))
    (value_labels : List (String × List (String × String))) :
    (st.index_dataset now dataset_id source title description license access_mode
        variable_labels value_labels).datasets =
      if st.datasets.any (fun r => r.id == dataset_id) then
        st.datasets.map (updateRow title description license access_mode now dataset_id)
      else
        st.datasets ++
          [⟨dataset_id, source, title, description, license, access_mode, now, now⟩] := rfl

theorem index_dataset_variable_labels (st : SearchIndex) (now : Nat)
    (dataset_id source title : String) (description license : Option String)
    (access_mode : String) (variable_labels : List (String × String))
    (value_labels : List (String × List (String × String))) :
    (st.index_dataset now dataset_id source title description license access_mode
        variable_labels value_labels).variable_labels =
      st.variable_labels.filter (fun vl => ¬ vl.dataset_id == dataset_id) ++
        variable_labels.map (fun p => VarLabelRow.mk dataset_id p.1 p.2) := rfl

/-- After an upsert, the `variable_labels` rows of the upserted id are
exactly the supplied set: delete-then-reinsert. -/
theorem labelsFor_index_dataset_self (st : SearchIndex) (now : Nat)
    (dataset_id source title : String) (description license : Option String)
    (access_mode : String) (variable_labels : List (String × String))
    (value_labels : List (String × List (String × String))) :
    (st.index_dataset now dataset_id source title description license access_mode
        variable_labels value_labels).variable_labels.filter
        (fun vl => vl.dataset_id == dataset_id) =
      variable_labels.map (fun p => VarLabelRow.mk dataset_id p.1 p.2) := by
  rw [index_dataset_variable_labels, List.filter_append]
  have h1 : (st.variable_labels.filter (fun vl => ¬ vl.dataset_id == dataset_id)).filter
      (fun vl => vl.dataset_id == dataset_id) = [] := by
    rw [List.filter_filter]
    apply List.filter_eq_nil_iff.mpr
    intro vl _
    cases h : vl.dataset_id == dataset_id <;> simp [h]
  have h2 : (variable_labels.map (fun p => VarLabelRow.mk dataset_id p.1 p.2)).filter
      (fun vl => vl.dataset_id == dataset_id) =
      variable_labels.map (fun p => VarLabelRow.mk dataset_id p.1 p.2) := by
    apply List.filter_eq_self.mpr
    intro vl hvl
    obtain ⟨p, _, rfl⟩ := List.mem_map.mp hvl
    exact beq_self_eq_true dataset_id
  rw [h1, h2, List.nil_append]

/-- Frame: an upsert leaves the `variable_labels` rows of every other
dataset id untouched. -/
theorem labelsFor_index_dataset_other (st : SearchIndex) (now : Nat)
    (dataset_id source title : String) (description license : Option String)
    (access_mode : String) (variable_labels : List (String × String))
    (value_labels : List (String × List (String × String)))
    (other_id : String) (hne : other_id ≠ dataset_id) :
    (st.index_dataset now dataset_id source title description license access_mode
        variable_labels value_labels).variable_labels.filter
        (fun vl => vl.dataset_id == other_id) =
      st.variable_labels.filter (fun vl => vl.dataset_id == other_id) := by
  rw [index_dataset_variable_labels, List.filter_append]
  have h2 : (variable_labels.map (fun p => VarLabelRow.mk dataset_id p.1 p.2)).filter
      (fun vl => vl.dataset_id == other_id) = [] := by
    apply List.filter_eq_nil_iff.mpr
    intro vl hvl
    obtain ⟨p, _, rfl⟩ := List.mem_map.mp hvl
    simp only [beq_iff_eq]
    exact fun h => hne h.symm
  have h1 : (st.variable_labels.filter (fun vl => ¬ vl.dataset_id == dataset_id)).filter
      (fun vl => vl.dataset_id == other_id) =
      st.variable_labels.filter (fun vl => vl.dataset_id == other_id) := by
    rw [List.filter_filter]
    apply List.filter_congr
    intro vl _
    cases h : vl.dataset_id == other_id
    · rfl
    · have : vl.dataset_id = other_id := by
        exact beq_iff_eq.mp h
      have : ¬ (vl.dataset_id == dataset_id) = true := by
        simp only [beq_iff_eq, this]
        exact hne
      simp [this]
  rw [h1, h2, List.append_nil]

/-- After an upsert, exactly one `datasets` row carries the upserted id
(given the primary-key invariant). -/
theorem count_id_index_dataset (st : SearchIndex) (hWf : st.Wf) (now : Nat)
    (dataset_id source title : String) (description license : Option String)
    (access_mode : String) (variable_labels : List (String × String))
    (value_labels : List (String × List (String × String))) :
    ((st.index_dataset now dataset_id source title description license access_mode
        variable_labels value_labels).datasets.filter
        (fun r => r.id == dataset_id)).length = 1 := by
  rw [← List.countP_eq_length_filter, index_dataset_datasets]
  by_cases hex : st.datasets.any (fun r => r.id == dataset_id) = true
  · rw [if_pos hex]
    have hmap : List.countP (fun r => r.id == dataset_id)
        (st.datasets.map (updateRow title description license access_mode now dataset_id)) =
        List.countP (fun r => r.id == dataset_id) st.datasets := by
      rw [List.countP_map]
      apply List.countP_congr
      intro r _
      show (((updateRow title description license access_mode now dataset_id r).id ==
        dataset_id) = true) ↔ _
      rw [updateRow_id]
    rw [hmap]
    have hcount : List.countP (fun r => r.id == dataset_id) st.datasets =
        List.count dataset_id (st.datasets.map (·.id)) := by
      rw [List.count, List.countP_map]
      apply List.countP_congr
      intro r _
      exact Iff.rfl
    rw [hcount]
    have hle : List.count dataset_id (st.datasets.map (·.id)) ≤ 1 :=
      List.nodup_iff_count_le_one.mp hWf dataset_id
    have hge : 1 ≤ List.count dataset_id (st.datasets.map (·.id)) := by
      obtain ⟨r, hr, hid⟩ := List.any_eq_true.mp hex
      have : dataset_id ∈ st.datasets.map (·.id) :=
        List.mem_map.mpr ⟨r, hr, beq_iff_eq.mp hid⟩
      exact List.count_pos_iff.mpr this
    omega
  · rw [if_neg hex, List.countP_append]
    have h0 : List.countP (fun r => r.id == dataset_id) st.datasets = 0 := by
      apply List.countP_eq_zero.mpr
      intro r hr
      intro hc
      exact hex (List.any_eq_true.mpr ⟨r, hr, hc⟩)
    rw [h0]
    simp [List.countP_cons]

/-- An upsert preserves the primary-key invariant. -/
theorem Wf_index_dataset (st : SearchIndex) (hWf : st.Wf) (now : Nat)
    (dataset_id source title : String) (description license : Option String)
    (access_mode : String) (variable_labels : List (String × String))
    (value_labels : List (String × List (String × String))) :
    (st.index_dataset now dataset_id source title description license access_mode
        variable_labels value_labels).Wf := by
  unfold SearchIndex.Wf at hWf ⊢
  rw [index_dataset_datasets]
  by_cases hex : st.datasets.any (fun r => r.id == dataset_id) = true
  · rw [if_pos hex, List.map_map]
    have : ((fun r : CatalogRow => r.id) ∘
        updateRow title description license access_mode now dataset_id) =
        (fun r : CatalogRow => r.id) :=
      funext fun r => updateRow_id title description license access_mode now dataset_id r
    rw [this]
    exact hWf
  · rw [if_neg hex, List.map_append]
    rw [List.nodup_append]
    refine ⟨hWf, List.nodup_singleton _, ?_⟩
    intro a ha hb
    simp only [List.map_cons, List.map_nil, List.mem_singleton] at hb
    subst hb
    obtain ⟨r, hr, hid⟩ := List.mem_map.mp ha
    exact hex (List.any_eq_true.mpr ⟨r, hr, beq_iff_eq.mpr hid⟩)

/-! ## Claim C1 -/

/-- C1: calling `index_dataset` (upsert) twice with the same dataset id
and two variable-label sets leaves exactly one `datasets` row for that id
(given the primary-key invariant), the `variable_labels` rows of that id
are exactly the second call's set (delete-then-reinsert), and no variable
name that appears only in the first call's set survives. -/
theorem upsert_twice_replaces_labels (st : SearchIndex) (hWf : st.Wf)
    (now1 now2 : Nat) (dataset_id : String)
    (source1 title1 : String) (description1 license1 : Option String)
    (access_mode1 : String) (labels1 : List (String × String))
    (vals1 : List (String × List (String × String)))
    (source2 title2 : String) (description2 license2 : Option String)
    (access_mode2 : String) (labels2 : List (String × String))
    (vals2 : List (String × List (String × String)))
    (st2 : SearchIndex)
    (hst2 : st2 = (st.index_dataset now1 dataset_id source1 title1 description1
        license1 access_mode1 labels1 vals1).index_dataset now2 dataset_id source2
        title2 description2 license2 access_mode2 labels2 vals2) :
    (st2.datasets.filter (fun r => r.id == dataset_id)).length = 1 ∧
    st2.variable_labels.filter (fun vl => vl.dataset_id == dataset_id) =
      labels2.map (fun p => VarLabelRow.mk dataset_id p.1 p.2) ∧
    (∀ p ∈ labels1, p.1 ∉ labels2.map Prod.fst →
      ∀ vl ∈ st2.variable_labels,
        ¬(vl.dataset_id = dataset_id ∧ vl.variable_name = p.1)) := by
  subst hst2
  have hWf1 := Wf_index_dataset st hWf now1 dataset_id source1 title1 description1
    license1 access_mode1 labels1 vals1
  refine ⟨count_id_index_dataset _ hWf1 now2 dataset_id source2 title2 description2
    license2 access_mode2 labels2 vals2, ?_, ?_⟩
  · exact labelsFor_index_dataset_self _ now2 dataset_id source2 title2 description2
      license2 access_mode2 labels2 vals2
  · intro p _ hnot vl hvl ⟨hid, hname⟩
    have hmem : vl ∈ ((st.index_dataset now1 dataset_id source1 title1 description1
        license1 access_mode1 labels1 vals1).index_dataset now2 dataset_id source2
        title2 description2 license2 access_mode2 labels2 vals2).variable_labels.filter
        (fun x => x.dataset_id == dataset_id) :=
      List.mem_filter.mpr ⟨hvl, beq_iff_eq.mpr hid⟩
    rw [labelsFor_index_dataset_self _ now2 dataset_id source2 title2 description2
      license2 access_mode2 labels2 vals2] at hmem
    obtain ⟨q, hq, hvq⟩ := List.mem_map.mp hmem
    apply hnot
    apply List.mem_map.mpr
    refine ⟨q, hq, ?_⟩
    have : q.1 = vl.variable_name := by rw [← hvq]
    rw [this, hname]

/-- C1 witness: the general theorem applied to a concrete double upsert. -/
theorem upsert_twice_replaces_labels_witness :
    SearchIndex.empty.Wf ∧
    (let st2 := (SearchIndex.empty.index_dataset 0 "test:a" "test" "T1" none none
        "direct" [("age", "Age"), ("old", "Old")] []).index_dataset 1 "test:a" "test"
        "T2" none none "direct" [("height", "Height")] []
     (st2.datasets.filter (fun r => r.id == "test:a")).length = 1 ∧
     st2.variable_labels.filter (fun vl => vl.dataset_id == "test:a") =
       [("height", "Height")].map (fun p => VarLabelRow.mk "test:a" p.1 p.2) ∧
     (∀ p ∈ [("age", "Age"), ("old", "Old")], p.1 ∉ ["height"] →
       ∀ vl ∈ st2.variable_labels,
         ¬(vl.dataset_id = "test:a" ∧ vl.variable_name = p.1))) :=
  ⟨by decide,
   upsert_twice_replaces_labels SearchIndex.empty (by decide) 0 1 "test:a"
     "test" "T1" none none "direct" [("age", "Age"), ("old", "Old")] []
     "test" "T2" none none "direct" [("height", "Height")] [] _ rfl⟩

/-! ## Claim C9 -/

/-- C9: an upsert on an existing id rewrites only the mutable columns
(`title`, `description`, `license`, `access_mode`, `updated_at`), keeping
`created_at` and `source`; it leaves the `datasets` row and the
`variable_labels` rows of every other id unchanged (in particular it never
removes another dataset's record); on a new id it inserts a row with
`created_at = updated_at = now`. -/
theorem upsert_frame (st : SearchIndex) (now : Nat)
    (dataset_id source title : String) (description license : Option String)
    (access_mode : String) (variable_labels : List (String × String))
    (value_labels : List (String × List (String × String)))
    (st' : SearchIndex)
    (hst' : st' = st.index_dataset now dataset_id source title description license
        access_mode variable_labels value_labels) :
    (∀ r0 ∈ st.datasets, r0.id = dataset_id →
      ∃ r' ∈ st'.datasets, r'.id = dataset_id ∧ r'.created_at = r0.created_at ∧
        r'.source = r0.source ∧ r'.title = title ∧ r'.description = description ∧
        r'.license = license ∧ r'.access_mode = access_mode ∧
        r'.updated_at = now) ∧
    (∀ r : CatalogRow, r.id ≠ dataset_id → (r ∈ st'.datasets ↔ r ∈ st.datasets)) ∧
    (∀ other_id : String, other_id ≠ dataset_id →
      st'.variable_labels.filter (fun vl => vl.dataset_id == other_id) =
        st.variable_labels.filter (fun vl => vl.dataset_id == other_id)) ∧
    ((∀ r ∈ st.datasets, r.id ≠ dataset_id) →
      ∃ r' ∈ st'.datasets, r'.id = dataset_id ∧ r'.created_at = now ∧
        r'.updated_at = now) := by
  subst hst'
  refine ⟨?_, ?_, ?_, ?_⟩
  · intro r0 hr0 hid
    have hex : st.datasets.any (fun r => r.id == dataset_id) = true :=
      List.any_eq_true.mpr ⟨r0, hr0, beq_iff_eq.mpr hid⟩
    rw [index_dataset_datasets, if_pos hex]
    refine ⟨updateRow title description license access_mode now dataset_id r0,
      List.mem_map.mpr ⟨r0, hr0, rfl⟩, ?_⟩
    unfold updateRow
    rw [if_pos hid]
    exact ⟨hid, rfl, rfl, rfl, rfl, rfl, rfl, rfl⟩
  · intro r hne
    rw [index_dataset_datasets]
    by_cases hex : st.datasets.any (fun x => x.id == dataset_id) = true
    · rw [if_pos hex]
      constructor
      · intro hmem
        obtain ⟨r1, hr1, hup⟩ := List.mem_map.mp hmem
        by_cases h1 : r1.id = dataset_id
        · exfalso
          apply hne
          rw [← hup, updateRow_id, h1]
        · unfold updateRow at hup
          rw [if_neg h1] at hup
          rwa [← hup]
      · intro hmem
        apply List.mem_map.mpr
        refine ⟨r, hmem, ?_⟩
        unfold updateRow
        rw [if_neg hne]
    · rw [if_neg hex]
      rw [List.mem_append]
      constructor
      · rintro (h | h)
        · exact h
        · exfalso
          rw [List.mem_singleton] at h
          subst h
          exact hne rfl
      · exact Or.inl
  · intro other_id hne
    exact labelsFor_index_dataset_other st now dataset_id source title description
      license access_mode variable_labels value_labels other_id hne
  · intro hall
    have hex : ¬ st.datasets.any (fun r => r.id == dataset_id) = true := by
      intro h
      obtain ⟨r, hr, hid⟩ := List.any_eq_true.mp h
      exact hall r hr (beq_iff_eq.mp hid)
    rw [index_dataset_datasets, if_neg hex]
    exact ⟨⟨dataset_id, source, title, description, license, access_mode, now, now⟩,
      List.mem_append.mpr (Or.inr (List.mem_singleton.mpr rfl)), rfl, rfl, rfl⟩

/-- C9 witness: the frame theorem applied to a concrete upsert over a
one-dataset catalog. -/
theorem upsert_frame_witness :
    (let st := SearchIndex.empty.index_dataset 0 "test:a" "test" "A" none none
        "direct" [("age", "Age")] []
     let st' := st.index_dataset 5 "test:b" "test" "B" none none "direct"
        [("height", "Height")] []
     (∀ other_id : String, other_id ≠ "test:b" →
        st'.variable_labels.filter (fun vl => vl.dataset_id == other_id) =
          st.variable_labels.filter (fun vl => vl.dataset_id == other_id)) ∧
     ((∀ r ∈ st.datasets, r.id ≠ "test:b") →
        ∃ r' ∈ st'.datasets, r'.id = "test:b" ∧ r'.created_at = 5 ∧
          r'.updated_at = 5)) ∧
    (∀ r ∈ (SearchIndex.empty.index_dataset 0 "test:a" "test" "A" none none
        "direct" [("age", "Age")] []).datasets, r.id ≠ "test:b") :=
  ⟨⟨(upsert_frame _ 5 "test:b" "test" "B" none none "direct"
      [("height", "Height")] [] _ rfl).2.2.1,
    (upsert_frame _ 5 "test:b" "test" "B" none none "direct"
      [("height", "Height")] [] _ rfl).2.2.2⟩,
   by decide⟩

/-! ## Claim C2 -/

/-- C2 (amended): in State B, for every catalog and every query `q` free
of the SQL LIKE wildcards `%` and `_`, `search` returns exactly those
rows whose title, id, or (non-NULL) description contains `q` as a
case-insensitive substring — and whose source equals the filter when a
non-empty one is supplied — truncated at `limit` in row-insertion order;
the empty query matches every indexed dataset. -/
theorem search_stateB_substring (st : SearchIndex) (q : String)
    (source : Option String) (limit : Nat) (hq : wildcardFree q) :
    st.search q source limit = specSearchB st q source limit ∧
    st.search "" source limit =
      ((st.datasets.filter (srcCond source)).take limit).map toSummary := by
  have main : ∀ q' : String, wildcardFree q' →
      st.search q' source limit = specSearchB st q' source limit := by
    intro q' hq'
    unfold SearchIndex.search specSearchB
    congr 2
    apply List.filter_congr
    intro r _
    rw [rowMatchesLike_eq_spec q' hq' r]
  refine ⟨main q hq, ?_⟩
  rw [main "" (by intro c hc; cases hc)]
  unfold specSearchB
  congr 2
  apply List.filter_congr
  intro r _
  have h1 : containsCI r.title "" = true := by
    simp [containsCI]
  rw [h1]
  rfl

/-- C2 counterexample: the claim quantifies over every query string, but
`_` is a live LIKE wildcard: on a catalog whose only row has title `xy`
and id `a`, `search "_"` returns the row although `_` is not a substring
of its title, id, or (absent) description. -/
theorem search_wildcard_breaks_substring_reading :
    (SearchIndex.empty.index_dataset 0 "a" "s" "xy" none none "direct" [] []).search
        "_" none 100 = [⟨"a", "s", "xy"⟩] ∧
    specSearchB (SearchIndex.empty.index_dataset 0 "a" "s" "xy" none none "direct" [] [])
        "_" none 100 = [] := by
  decide

/-- C2 witness: the amended theorem at a concrete catalog and query. -/
theorem search_stateB_substring_witness :
    wildcardFree "unemployment" ∧
    ((SearchIndex.empty.index_dataset 0 "eurostat:une_rt_m" "eurostat"
        "Unemployment rate - monthly" none none "direct" [] []).search
        "unemployment" none 100 =
      specSearchB (SearchIndex.empty.index_dataset 0 "eurostat:une_rt_m" "eurostat"
        "Unemployment rate - monthly" none none "direct" [] [])
        "unemployment" none 100) :=
  ⟨by decide,
   (search_stateB_substring (SearchIndex.empty.index_dataset 0 "eurostat:une_rt_m"
      "eurostat" "Unemployment rate - monthly" none none "direct" [] [])
      "unemployment" none 100 (by decide)).1⟩

/-! ## Claim C3 -/

instance : IsTotal CatalogRow updatedDesc :=
  ⟨fun a b => (Nat.le_total b.updated_at a.updated_at).imp id id⟩

instance : IsTrans CatalogRow updatedDesc :=
  ⟨fun _ _ _ hab hbc => Nat.le_trans hbc hab⟩

/-- The spec scenario catalog: `test:a` with variable `age`, indexed at
instant 0. -/
def stA : SearchIndex :=
  SearchIndex.empty.index_dataset 0 "test:a" "test" "Dataset A" none none "direct"
    [("age", "Age")] []

/-- The spec scenario catalog: `stA` plus `test:b` with variable
`height`, indexed at instant 1. -/
def stAB : SearchIndex :=
  stA.index_dataset 1 "test:b" "test" "Dataset B" none none "direct"
    [("height", "Height")] []

theorem truthy_some_of_ne (v : String) (hv : v ≠ "") : truthy (some v) = true := by
  simp [truthy, hv]

/-- C3 (amended): `search_advanced` filters by the conjunction of the
supplied (truthy) predicates, orders by `updated_at` descending and
truncates at `limit`; for a wildcard-free, non-empty `variable_name` the
variable predicate is exactly "some indexed variable name of the dataset
contains it as a case-insensitive substring"; with `test:a` (variable
`age`) and `test:b` (variable `height`) indexed,
`search_advanced (variable_name := "age")` returns only `test:a`. -/
theorem search_advanced_conjunction (st : SearchIndex)
    (q source variable_name : Option String) (limit : Nat) :
    (∃ rows : List CatalogRow,
      st.search_advanced q source variable_name limit = rows.map toSummary ∧
      rows.length ≤ limit ∧
      rows.Pairwise updatedDesc ∧
      ∀ r ∈ rows, r ∈ st.datasets ∧ queryCond q r = true ∧ srcCond source r = true ∧
        varCond st variable_name r = true) ∧
    (∀ v : String, v ≠ "" → wildcardFree v → ∀ r : CatalogRow,
      varCond st (some v) r =
        st.variable_labels.any (fun vl =>
          vl.dataset_id == r.id && containsCI vl.variable_name v)) ∧
    stAB.search_advanced none none (some "age") 100 =
      [⟨"test:a", "test", "Dataset A"⟩] := by
  refine ⟨?_, ?_, by decide⟩
  · refine ⟨((st.datasets.filter (fun r =>
        queryCond q r && srcCond source r && varCond st variable_name r)).insertionSort
        updatedDesc).take limit, rfl, List.length_take_le limit _, ?_, ?_⟩
    · exact List.Pairwise.sublist (List.take_sublist limit _)
        (List.sorted_insertionSort updatedDesc _)
    · intro r hr
      have hr2 : r ∈ (st.datasets.filter (fun r =>
          queryCond q r && srcCond source r && varCond st variable_name r)).insertionSort
          updatedDesc := List.take_subset limit _ hr
      have hr3 : r ∈ st.datasets.filter (fun r =>
          queryCond q r && srcCond source r && varCond st variable_name r) :=
        (List.perm_insertionSort updatedDesc _).mem_iff.mp hr2
      obtain ⟨hmem, hpred⟩ := List.mem_filter.mp hr3
      simp only [Bool.and_eq_true] at hpred
      exact ⟨hmem, hpred.1.1, hpred.1.2, hpred.2⟩
  · intro v hv hwf r
    unfold varCond
    rw [if_pos (truthy_some_of_ne v hv)]
    have heq : (fun vl : VarLabelRow =>
        vl.dataset_id == r.id &&
          sqlLike vl.variable_name (likePattern ((some v).getD ""))) =
        (fun vl : VarLabelRow =>
          vl.dataset_id == r.id && containsCI vl.variable_name v) := by
      funext vl
      simp only [Option.getD_some]
      rw [sqlLike_likePattern_eq_containsCI vl.variable_name v hwf]
    rw [heq]

/-- C3 counterexample: `variable_name` is matched with `LIKE`, not
case-sensitive substring containment: on the one-dataset catalog whose
only variable is `age`, both `a_e` (live `_` wildcard) and `AGE`
(case-folded) return the dataset although neither is a substring of any
indexed variable name. -/
theorem search_advanced_variable_name_not_substring :
    stA.search_advanced none none (some "a_e") 100 =
      [⟨"test:a", "test", "Dataset A"⟩] ∧
    stA.search_advanced none none (some "AGE") 100 =
      [⟨"test:a", "test", "Dataset A"⟩] ∧
    (∀ vl ∈ stA.variable_labels, ¬("a_e".data <:+: vl.variable_name.data)) ∧
    (∀ vl ∈ stA.variable_labels, ¬("AGE".data <:+: vl.variable_name.data)) := by
  decide

/-- C3 witness: the amended theorem at the scenario catalog. -/
theorem search_advanced_conjunction_witness :
    "age" ≠ "" ∧ wildcardFree "age" ∧
    (∀ r : CatalogRow,
      varCond stAB (some "age") r =
        stAB.variable_labels.any (fun vl =>
          vl.dataset_id == r.id && containsCI vl.variable_name "age")) ∧
    stAB.search_advanced none none (some "age") 100 =
      [⟨"test:a", "test", "Dataset A"⟩] :=
  ⟨by decide, by decide,
   fun r => (search_advanced_conjunction stAB none none (some "age") 100).2.1
     "age" (by decide) (by decide) r,
   (search_advanced_conjunction stAB none none (some "age") 100).2.2⟩

/-! ## Claim C8 -/

theorem queryCond_none (r : CatalogRow) : queryCond none r = true := rfl

theorem srcCond_none (r : CatalogRow) : srcCond none r = true := rfl

theorem varCond_none (st : SearchIndex) (r : CatalogRow) : varCond st none r = true := rfl

/-- Widening the filter pointwise widens `search_advanced` results,
provided the widened match set is not truncated by `limit`. -/
theorem mem_search_advanced_mono (st : SearchIndex)
    (q1 s1 v1 q2 s2 v2 : Option String) (limit : Nat)
    (himp : ∀ r, (queryCond q1 r && srcCond s1 r && varCond st v1 r) = true →
      (queryCond q2 r && srcCond s2 r && varCond st v2 r) = true)
    (hlim : (st.datasets.filter (fun r =>
      queryCond q2 r && srcCond s2 r && varCond st v2 r)).length ≤ limit) :
    ∀ d ∈ st.search_advanced q1 s1 v1 limit, d ∈ st.search_advanced q2 s2 v2 limit := by
  intro d hd
  unfold SearchIndex.search_advanced at hd ⊢
  obtain ⟨r, hr, rfl⟩ := List.mem_map.mp hd
  have hr1 : r ∈ st.datasets.filter (fun r =>
      queryCond q1 r && srcCond s1 r && varCond st v1 r) :=
    (List.perm_insertionSort updatedDesc _).mem_iff.mp (List.take_subset limit _ hr)
  obtain ⟨hmem, hp1⟩ := List.mem_filter.mp hr1
  have hr2 : r ∈ st.datasets.filter (fun r =>
      queryCond q2 r && srcCond s2 r && varCond st v2 r) :=
    List.mem_filter.mpr ⟨hmem, himp r hp1⟩
  have hr3 : r ∈ (st.datasets.filter (fun r =>
      queryCond q2 r && srcCond s2 r && varCond st v2 r)).insertionSort updatedDesc :=
    (List.perm_insertionSort updatedDesc _).mem_iff.mpr hr2
  have htake : ((st.datasets.filter (fun r =>
      queryCond q2 r && srcCond s2 r && varCond st v2 r)).insertionSort
      updatedDesc).take limit = (st.datasets.filter (fun r =>
      queryCond q2 r && srcCond s2 r && varCond st v2 r)).insertionSort updatedDesc := by
    apply List.take_of_length_le
    rw [(List.perm_insertionSort updatedDesc _).length_eq]
    exact hlim
  rw [htake]
  exact List.mem_map.mpr ⟨r, hr3, rfl⟩

/-- C8 (amended): omitting one of the `search_advanced` predicates
(query, source, or variable name) yields a superset of the results of the
call with the predicate supplied — provided the widened call's match set
fits within `limit` (with truncation the two calls can keep different
rows, see the counterexample). -/
theorem search_advanced_omit_predicate_superset (st : SearchIndex)
    (q source variable_name : Option String) (limit : Nat) :
    (((st.datasets.filter (fun r =>
        queryCond none r && srcCond source r && varCond st variable_name r)).length ≤
          limit) →
      ∀ d ∈ st.search_advanced q source variable_name limit,
        d ∈ st.search_advanced none source variable_name limit) ∧
    (((st.datasets.filter (fun r =>
        queryCond q r && srcCond none r && varCond st variable_name r)).length ≤
          limit) →
      ∀ d ∈ st.search_advanced q source variable_name limit,
        d ∈ st.search_advanced q none variable_name limit) ∧
    (((st.datasets.filter (fun r =>
        queryCond q r && srcCond source r && varCond st none r)).length ≤ limit) →
      ∀ d ∈ st.search_advanced q source variable_name limit,
        d ∈ st.search_advanced q source none limit) := by
  refine ⟨fun hlim => ?_, fun hlim => ?_, fun hlim => ?_⟩
  · apply mem_search_advanced_mono st q source variable_name none source variable_name
      limit ?_ hlim
    intro r h
    simp only [Bool.and_eq_true] at h ⊢
    exact ⟨⟨queryCond_none r, h.1.2⟩, h.2⟩
  · apply mem_search_advanced_mono st q source variable_name q none variable_name
      limit ?_ hlim
    intro r h
    simp only [Bool.and_eq_true] at h ⊢
    exact ⟨⟨h.1.1, srcCond_none r⟩, h.2⟩
  · apply mem_search_advanced_mono st q source variable_name q source none
      limit ?_ hlim
    intro r h
    simp only [Bool.and_eq_true] at h ⊢
    exact ⟨⟨h.1.1, h.1.2⟩, varCond_none st r⟩

/-- C8 counterexample: with `limit = 1` held fixed, omitting the
`variable_name` predicate does not yield a superset: the strict call
returns `test:a` while the relaxed call truncates to the more recently
updated `test:b` only. -/
theorem search_advanced_limit_breaks_monotonicity :
    (⟨"test:a", "test", "Dataset A"⟩ : DatasetSummary) ∈
      stAB.search_advanced none none (some "age") 1 ∧
    (⟨"test:a", "test", "Dataset A"⟩ : DatasetSummary) ∉
      stAB.search_advanced none none none 1 := by
  decide

/-- C8 witness: the amended theorem at the scenario catalog with a
non-truncating limit. -/
theorem search_advanced_omit_predicate_superset_witness :
    ((stAB.datasets.filter (fun r =>
        queryCond none r && srcCond none r && varCond stAB none r)).length ≤ 100) ∧
    (∀ d ∈ stAB.search_advanced none none (some "age") 100,
      d ∈ stAB.search_advanced none none none 100) :=
  ⟨by decide,
   (search_advanced_omit_predicate_superset stAB none none (some "age") 100).2.2
     (by decide)⟩

/-! ## Claim C4 -/

/-- C4 (amended): in `search`, a successful primary statement is final;
a `sqlite3.OperationalError` on the primary statement triggers exactly
one retry with the simple title/id substring (`LIKE`) query, whose
outcome — error included — is returned directly; any other storage-engine
error propagates with no retry; and `search_advanced` always executes
exactly its one statement and propagates its outcome with no retry. -/
theorem search_retry_semantics (fts5 : Bool) (eng : Engine) (q : String)
    (source : Option String) (limit : Nat) :
    (∀ rows, eng (primaryQuery fts5 q source limit) = .ok rows →
      searchAttempts fts5 eng q source limit =
        ([primaryQuery fts5 q source limit], .ok rows)) ∧
    (eng (primaryQuery fts5 q source limit) = .error .operational →
      searchAttempts fts5 eng q source limit =
        ([primaryQuery fts5 q source limit, SqlQuery.likeRetrySearch q source limit],
         eng (SqlQuery.likeRetrySearch q source limit))) ∧
    (eng (primaryQuery fts5 q source limit) = .error .database →
      searchAttempts fts5 eng q source limit =
        ([primaryQuery fts5 q source limit], .error .database)) ∧
    (∀ q2 s2 v2 : Option String,
      searchAdvancedAttempts fts5 eng q2 s2 v2 limit =
        ([SqlQuery.advancedSearch fts5 q2 s2 v2 limit],
         eng (SqlQuery.advancedSearch fts5 q2 s2 v2 limit))) := by
  refine ⟨?_, ?_, ?_, fun _ _ _ => rfl⟩
  · intro rows h
    unfold searchAttempts
    rw [h]
  · intro h
    unfold searchAttempts
    rw [h]
  · intro h
    unfold searchAttempts
    rw [h]

/-- C4 counterexample: an engine that fails every statement with a
non-operational error.  `search_advanced` propagates the error having
issued exactly one statement, which is not the substring retry; `search`
likewise propagates a non-operational error with no retry.  So a
storage-engine error can propagate without any substring retry being
attempted. -/
theorem search_advanced_propagates_without_retry :
    (searchAdvancedAttempts true (fun _ => .error .database)
        (some "q") none none 100).2 = .error .database ∧
    (searchAdvancedAttempts true (fun _ => .error .database)
        (some "q") none none 100).1 =
      [SqlQuery.advancedSearch true (some "q") none none 100] ∧
    (∀ sq ∈ (searchAdvancedAttempts true (fun _ => .error .database)
        (some "q") none none 100).1,
      ∀ (q2 : String) (s2 : Option String) (l2 : Nat),
        sq ≠ SqlQuery.likeRetrySearch q2 s2 l2) ∧
    (searchAttempts true (fun _ => .error .database) "q" none 100).1 =
      [primaryQuery true "q" none 100] := by
  refine ⟨rfl, rfl, ?_, rfl⟩
  intro sq hsq q2 s2 l2
  have : sq = SqlQuery.advancedSearch true (some "q") none none 100 := by
    simpa [searchAdvancedAttempts] using hsq
  subst this
  intro h
  cases h

/-- The engine used by the C4 witness: operational failure on everything
except the retry statement. -/
def engOp : Engine := fun sq =>
  match sq with
  | .likeRetrySearch _ _ _ => .ok []
  | _ => .error .operational

/-- C4 witness: the amended theorem at a concrete engine whose primary
query fails with an operational error. -/
theorem search_retry_semantics_witness :
    engOp (primaryQuery true "q" none 100) = .error .operational ∧
    searchAttempts true engOp "q" none 100 =
      ([primaryQuery true "q" none 100, SqlQuery.likeRetrySearch "q" none 100],
       .ok []) :=
  ⟨rfl, (search_retry_semantics true engOp "q" none 100).2.1 rfl⟩

/-! ## Claim C5 -/

theorem index_dataset_preserves_id_present (st : SearchIndex) (now : Nat)
    (dataset_id source title : String) (description license : Option String)
    (access_mode : String) (vls : List (String × String))
    (vals : List (String × List (String × String))) (id0 : String)
    (h : ∃ r ∈ st.datasets, r.id = id0) :
    ∃ r ∈ (st.index_dataset now dataset_id source title description license
        access_mode vls vals).datasets, r.id = id0 := by
  obtain ⟨r, hr, hid⟩ := h
  rw [index_dataset_datasets]
  by_cases hex : st.datasets.any (fun x => x.id == dataset_id) = true
  · rw [if_pos hex]
    refine ⟨updateRow title description license access_mode now dataset_id r,
      List.mem_map.mpr ⟨r, hr, rfl⟩, ?_⟩
    rw [updateRow_id]
    exact hid
  · rw [if_neg hex]
    exact ⟨r, List.mem_append.mpr (Or.inl hr), hid⟩

theorem index_dataset_id_present_self (st : SearchIndex) (now : Nat)
    (dataset_id source title : String) (description license : Option String)
    (access_mode : String) (vls : List (String × String))
    (vals : List (String × List (String × String))) :
    ∃ r ∈ (st.index_dataset now dataset_id source title description license
        access_mode vls vals).datasets, r.id = dataset_id := by
  rw [index_dataset_datasets]
  by_cases hex : st.datasets.any (fun x => x.id == dataset_id) = true
  · rw [if_pos hex]
    obtain ⟨r, hr, hid⟩ := List.any_eq_true.mp hex
    refine ⟨updateRow title description license access_mode now dataset_id r,
      List.mem_map.mpr ⟨r, hr, rfl⟩, ?_⟩
    rw [updateRow_id]
    exact beq_iff_eq.mp hid
  · rw [if_neg hex]
    exact ⟨⟨dataset_id, source, title, description, license, access_mode, now, now⟩,
      List.mem_append.mpr (Or.inr (List.mem_singleton.mpr rfl)), rfl⟩

theorem rebuild_index_preserves_id_present (sources : List RebuildSource) :
    ∀ (st : SearchIndex) (now0 : Nat) (id0 : String),
      (∃ r ∈ st.datasets, r.id = id0) →
      ∃ r ∈ (st.rebuild_index now0 sources).datasets, r.id = id0 := by
  induction sources with
  | nil => intro st now0 id0 h; exact h
  | cons x rest ih =>
    intro st now0 id0 h
    simp only [SearchIndex.rebuild_index]
    apply ih
    exact index_dataset_preserves_id_present st now0 x.summary.id x.summary.source
      x.summary.title none _ "direct" _ _ id0 h

/-- C5 (amended): `rebuild_index` never aborts and never skips a
dataset: every adapter-declared dataset ends up with a `datasets` row,
and one whose manifest read failed (missing or malformed
`ingestion_manifest.json`) is indexed with empty variable labels and no
license rather than skipped; the source reports no aggregate failure
count (the method returns nothing). -/
theorem rebuild_index_best_effort (st : SearchIndex) (now0 : Nat)
    (sources : List RebuildSource) :
    (∀ s ∈ sources,
      ∃ r ∈ (st.rebuild_index now0 sources).datasets, r.id = s.summary.id) ∧
    (SearchIndex.empty.rebuild_index 0
        [⟨⟨"test:a", "test", "A"⟩, none⟩]).get_dataset_info "test:a" =
      some ⟨"test:a", "test", "A", none, none, "direct", 0, 0, []⟩ := by
  refine ⟨?_, by decide⟩
  intro s hs
  induction sources generalizing st now0 with
  | nil => cases hs
  | cons x rest ih =>
    rcases List.mem_cons.mp hs with rfl | hmem
    · simp only [SearchIndex.rebuild_index]
      apply rebuild_index_preserves_id_present
      exact index_dataset_id_present_self st now0 s.summary.id s.summary.source
        s.summary.title none _ "direct" _ _
    · simp only [SearchIndex.rebuild_index]
      exact ih _ _ hmem

/-- C5 counterexample: a dataset whose manifest read fails is not
skipped — after the rebuild it has a `datasets` row (with empty variable
labels), where the claim requires it to be absent. -/
theorem rebuild_failed_manifest_not_skipped :
    ((SearchIndex.empty.rebuild_index 0
        [⟨⟨"test:a", "test", "A"⟩, none⟩]).datasets.filter
        (fun r => r.id == "test:a")).length = 1 ∧
    (SearchIndex.empty.rebuild_index 0
        [⟨⟨"test:a", "test", "A"⟩, none⟩]).variable_labels = [] := by
  decide

/-- C5 witness: the amended theorem at a one-dataset rebuild whose
manifest read failed. -/
theorem rebuild_index_best_effort_witness :
    (⟨⟨"test:a", "test", "A"⟩, none⟩ : RebuildSource) ∈
      [(⟨⟨"test:a", "test", "A"⟩, none⟩ : RebuildSource)] ∧
    ∃ r ∈ (SearchIndex.empty.rebuild_index 0
        [⟨⟨"test:a", "test", "A"⟩, none⟩]).datasets, r.id = "test:a" :=
  ⟨List.mem_singleton.mpr rfl,
   (rebuild_index_best_effort SearchIndex.empty 0
      [⟨⟨"test:a", "test", "A"⟩, none⟩]).1 _ (List.mem_singleton.mpr rfl)⟩

/-! ## Claim C7 -/

/-- C7: `resolve_adapter` returns the adapter keyed by the segment before
the first colon when the input has a colon and that segment is a known
source; the adapter keyed by the whole (colon-free) input when it is a
known source; and fails (`AdapterNotFoundError`) otherwise — exact
matching only. -/
theorem resolve_adapter_characterization (s : String) :
    (':' ∈ s.data → beforeFirstColon s ∈ adapterKeys →
      resolve_adapter s = some (beforeFirstColon s)) ∧
    (':' ∉ s.data → s ∈ adapterKeys → resolve_adapter s = some s) ∧
    (¬(':' ∈ s.data ∧ beforeFirstColon s ∈ adapterKeys) → s ∉ adapterKeys →
      resolve_adapter s = none) := by
  refine ⟨?_, ?_, ?_⟩
  · intro h1 h2
    unfold resolve_adapter
    rw [if_pos ⟨h1, h2⟩]
  · intro h1 h2
    unfold resolve_adapter
    rw [if_neg (fun h => h1 h.1), if_pos h2]
  · intro h1 h2
    unfold resolve_adapter
    rw [if_neg h1, if_neg h2]

/-- C7 witness: the characterization at concrete inputs. -/
theorem resolve_adapter_characterization_witness :
    (':' ∈ "eurostat:une_rt_m".data ∧
      beforeFirstColon "eurostat:une_rt_m" ∈ adapterKeys ∧
      resolve_adapter "eurostat:une_rt_m" = some (beforeFirstColon "eurostat:une_rt_m")) ∧
    (':' ∉ "manual".data ∧ "manual" ∈ adapterKeys ∧
      resolve_adapter "manual" = some "manual") ∧
    (¬(':' ∈ "nope:x".data ∧ beforeFirstColon "nope:x" ∈ adapterKeys) ∧
      "nope:x" ∉ adapterKeys ∧ resolve_adapter "nope:x" = none) :=
  ⟨⟨by decide, by decide,
    (resolve_adapter_characterization "eurostat:une_rt_m").1 (by decide) (by decide)⟩,
   ⟨by decide, by decide,
    (resolve_adapter_characterization "manual").2.1 (by decide) (by decide)⟩,
   ⟨by decide, by decide,
    (resolve_adapter_characterization "nope:x").2.2 (by decide) (by decide)⟩⟩

/-! ## Claim C10 -/

/-- C10: the registry façade `search_datasets` falls back to the linear
scan over the adapter-listed datasets both when the index search raises
and when it succeeds with an empty result list; consequently every
adapter-listed dataset whose title or id contains the query as a
case-insensitive substring is returned even when the catalog index holds
no matching record. -/
theorem search_datasets_empty_fallback (e : SqlError) (query : String)
    (all_ds : List DatasetSummary) :
    search_datasets (.error e) query all_ds true = simpleScan query all_ds ∧
    search_datasets (.ok []) query all_ds true = simpleScan query all_ds ∧
    (∀ ds ∈ all_ds, (containsCI ds.title query || containsCI ds.id query) = true →
      ds ∈ search_datasets (.ok []) query all_ds true) := by
  refine ⟨rfl, rfl, ?_⟩
  intro ds hds hmatch
  show ds ∈ simpleScan query all_ds
  exact List.mem_filter.mpr ⟨hds, hmatch⟩

/-- C10 witness: the fallback theorem at a concrete listing and query
matched by no index record (empty index result). -/
theorem search_datasets_empty_fallback_witness :
    ((⟨"eurostat:une_rt_m", "eurostat", "Unemployment rate - monthly"⟩ : DatasetSummary) ∈
      [(⟨"eurostat:une_rt_m", "eurostat", "Unemployment rate - monthly"⟩ : DatasetSummary)] ∧
     (containsCI "Unemployment rate - monthly" "rate" ||
       containsCI "eurostat:une_rt_m" "rate") = true) ∧
    (⟨"eurostat:une_rt_m", "eurostat", "Unemployment rate - monthly"⟩ : DatasetSummary) ∈
      search_datasets (.ok []) "rate"
        [⟨"eurostat:une_rt_m", "eurostat", "Unemployment rate - monthly"⟩] true :=
  ⟨⟨by decide, by decide⟩,
   (search_datasets_empty_fallback SqlError.database "rate"
      [⟨"eurostat:une_rt_m", "eurostat", "Unemployment rate - monthly"⟩]).2.2 _
     (by decide) (by decide)⟩

/-! ## Claim C6 -/

theorem mapM_pairs_str (rest : List (String × String)) :
    mapM (fun p => Option.map (fun s => (p.1, s)) (asStr p.2))
      (List.map (fun p => (p.1, Json.str p.2)) rest) = some rest := by
  induction rest with
  | nil => rfl
  | cons p r ih =>
    simp only [List.map_cons, List.mapM_cons, ih]
    rfl

theorem asStrMap_strMapJson (l : List (String × String)) :
    asStrMap (strMapJson l) = some l := mapM_pairs_str l

theorem mapM_strs (rest : List String) :
    mapM asStr (List.map Json.str rest) = some rest := by
  induction rest with
  | nil => rfl
  | cons p r ih =>
    simp only [List.map_cons, List.mapM_cons, ih]
    rfl

theorem asStrList_map_str (l : List String) :
    asStrList (Json.arr (l.map Json.str)) = some l := mapM_strs l

theorem mapM_pairs_map (rest : List (String × List (String × String))) :
    mapM (fun p => Option.map (fun m => (p.1, m)) (asStrMap p.2))
      (List.map (fun p => (p.1, strMapJson p.2)) rest) = some rest := by
  induction rest with
  | nil => rfl
  | cons p r ih =>
    simp only [List.map_cons, List.mapM_cons, ih, asStrMap_strMapJson]
    rfl

theorem asStrMapMap_dump (l : List (String × List (String × String))) :
    asStrMapMap (Json.obj (l.map (fun p => (p.1, strMapJson p.2)))) = some l :=
  mapM_pairs_map l

/-- C6: `IngestionManifest` round-trips losslessly through JSON —
serializing any manifest and parsing it back yields the same value
field for field — and parsing an object carrying only the required
fields (`timestamp`, `adapter`, `parameters`) succeeds, defaulting every
optional field to an empty mapping/list or `None`. -/
theorem manifest_json_round_trip :
    (∀ m : IngestionManifest, parseManifest (dumpManifest m) = some m) ∧
    parseManifest (Json.obj [("timestamp", Json.str "2024-01-01T00:00:00"),
        ("adapter", Json.str "manual"), ("parameters", Json.obj [])]) =
      some ⟨"2024-01-01T00:00:00", "manual", [], [], [], none, none, none, [], []⟩ := by
  refine ⟨?_, rfl⟩
  intro m
  obtain ⟨ts, ad, params, sh, tr, did, src, lic, vl, vvl⟩ := m
  cases did <;> cases src <;> cases lic <;>
    simp [dumpManifest, parseManifest, lookupField, parseDefault, parseOptStr,
      optStrJson, asStr, mapM_pairs_str, mapM_strs, mapM_pairs_map,
      asStrMap_strMapJson, asStrList_map_str, asStrMapMap_dump]

end SocData
